import Mathlib

/-!
Verification of the Drive Sanitization Engine (`src/src-tauri/src/main.rs`).

The Rust code is shallowly embedded as pure Lean functions.  Platform effects
(directory listings, Win32 enumeration calls, file create/write/sync/remove
outcomes, the random generator) are supplied through explicit environment
records, and the filesystem side effects performed by `sanitize_drive` are
recorded as an explicit trace of `FsOp` operations, so that claims about
"no write occurs" or "the scratch artifact is gone afterwards" become
statements about the trace.
-/

set_option maxRecDepth 10000

/-- Substring search helper: does the character list start with `pat`?
Models Rust `str::starts_with` as used inside `str::contains`. -/
def charsLead : List Char → List Char → Bool
  | [], _ => true
  | _ :: _, [] => false
  | a :: as, b :: bs => a == b && charsLead as bs

/-- Does `pat` occur as a contiguous substring of the character list?
Models Rust `str::contains`. -/
def charsHasSub (pat : List Char) : List Char → Bool
  | [] => charsLead pat []
  | c :: rest => charsLead pat (c :: rest) || charsHasSub pat rest

/-- Rust `s.contains(pat)` on strings. -/
def strHasSub (s pat : String) : Bool := charsHasSub pat.data s.data

/-- Mirror of the Rust `DriveInfo` struct (main.rs lines 12-21). -/
structure DriveInfo where
  letter : String
  size : Nat
  free_space : Nat
  label : String
  file_system : String
  serial_number : Nat
  is_system : Bool
deriving Repr, DecidableEq

/-- One entry of a directory listing, as produced by `fs::read_dir`:
its file name and whether `path.is_dir()` holds. -/
structure DirEnt where
  name : String
  isDir : Bool
deriving Repr, DecidableEq

/-- macOS enumeration environment: the listing of `/Volumes`
(`none` models `fs::read_dir("/Volumes")` returning `Err`). -/
structure MacEnv where
  volumesDir : Option (List DirEnt)

/-- Result of a successful `GetVolumeInformationW` call. -/
structure VolInfo where
  label : String
  serialNumber : Nat
  fileSystemName : String

/-- Result of a successful `GetDiskFreeSpaceExW` call. -/
structure DiskSpace where
  freeBytes : Nat
  totalBytes : Nat

/-- Windows enumeration environment: the `GetLogicalDrives` bitmask and, per
drive index, the outcomes of the two metadata queries (`none` = the call
failed for that volume). -/
structure WinEnv where
  drivesMask : Nat
  volInfo : Nat → Option VolInfo
  diskSpace : Nat → Option DiskSpace

/-- Linux enumeration environment: the listing of `/mnt`
(`none` models `fs::read_dir("/mnt")` returning `Err`). -/
structure LinuxEnv where
  mntDir : Option (List DirEnt)

/-- The compile-time `cfg(target_os = ...)` selection. -/
inductive Platform where
  | macos
  | windows
  | linux
deriving Repr, DecidableEq

/-- Combined platform environment handed to `detect_drives`. -/
structure SysEnv where
  mac : MacEnv
  win : WinEnv
  linux : LinuxEnv

/-- macOS branch of `detect_drives` (main.rs lines 51-90): one `DriveInfo`
per directory entry of `/Volumes`, sizes/serial zero, and `is_system` set
iff the entry is named `Macintosh HD` or its path contains `Macintosh HD`.
(The `fs::metadata` block at lines 74-78 only re-assigns the sizes to the
zero values they already hold, so it has no observable effect.) -/
def macDrive (name : String) : DriveInfo :=
  { letter := "/Volumes/" ++ name
    size := 0
    free_space := 0
    label := name
    file_system := "APFS/HFS+"
    serial_number := 0
    is_system := name == "Macintosh HD" || strHasSub ("/Volumes/" ++ name) "Macintosh HD" }

/-- macOS volume scan: directory-read failure degrades to an empty listing
(the `if let Ok(entries)` at line 53 silently skips on `Err`). -/
def detectMac (env : MacEnv) : List DriveInfo :=
  match env.volumesDir with
  | none => []
  | some entries => (entries.filter (fun e => e.isDir)).map (fun e => macDrive e.name)

/-- The drive designator `format!("{}:\\", char::from(b'A' + i))` built at
main.rs line 106. -/
def winLetter (i : Nat) : String := String.mk [Char.ofNat (65 + i), ':', '\\']

/-- Windows branch, per-drive descriptor (main.rs lines 104-159): metadata
from the two queries when they succeed, default values (empty strings,
zeros) when they fail; `is_system` iff the designator equals `C:\`. -/
def winDrive (env : WinEnv) (i : Nat) : DriveInfo :=
  { letter := winLetter i
    size := match env.diskSpace i with | some ds => ds.totalBytes | none => 0
    free_space := match env.diskSpace i with | some ds => ds.freeBytes | none => 0
    label := match env.volInfo i with | some v => v.label | none => ""
    file_system := match env.volInfo i with | some v => v.fileSystemName | none => ""
    serial_number := match env.volInfo i with | some v => v.serialNumber | none => 0
    is_system := winLetter i == "C:\\" }

/-- Windows volume scan (main.rs lines 93-163): error iff `GetLogicalDrives`
returns 0, else one descriptor per set bit among indices 0..26. -/
def detectWin (env : WinEnv) : Except String (List DriveInfo) :=
  if env.drivesMask == 0 then .error "Failed to get logical drives"
  else .ok ((List.range 26).filterMap fun i =>
    if env.drivesMask.testBit i then some (winDrive env i) else none)

/-- Linux branch, per-entry descriptor (main.rs lines 178-186):
`is_system` is always `false` on this path. -/
def linuxDrive (name : String) : DriveInfo :=
  { letter := "/mnt/" ++ name
    size := 0
    free_space := 0
    label := name
    file_system := "ext4"
    serial_number := 0
    is_system := false }

/-- Linux volume scan (main.rs lines 166-193): directory-read failure
degrades to an empty listing. -/
def detectLinux (env : LinuxEnv) : List DriveInfo :=
  match env.mntDir with
  | none => []
  | some entries => (entries.filter (fun e => e.isDir)).map (fun e => linuxDrive e.name)

/-- `detect_drives` (main.rs lines 46-196), platform-dispatched. -/
def detect_drives : Platform → SysEnv → Except String (List DriveInfo)
  | .macos, env => .ok (detectMac env.mac)
  | .windows, env => detectWin env.win
  | .linux, env => .ok (detectLinux env.linux)

/-- `check_safety` (main.rs lines 198-209): re-enumerate, find the drive by
exact letter match, reject system drives, report missing drives. -/
def check_safety (p : Platform) (env : SysEnv) (drive_letter : String) :
    Except String Bool :=
  match detect_drives p env with
  | .error e => .error e
  | .ok drives =>
    match drives.find? (fun d => d.letter == drive_letter) with
    | some d => if d.is_system then .error "Cannot sanitize system drive" else .ok true
    | none => .error "Drive not found"

/-- Filesystem operation issued by `sanitize_drive`.  A `write` carries the
byte count and the written data as a byte-indexed function (index `i`
holds the `i`-th byte of the 1 MiB buffer handed to `write_all`). -/
inductive FsOp where
  | create (path : String)
  | write (path : String) (len : Nat) (data : Nat → Nat)
  | sync (path : String)
  | remove (path : String)

/-- Environment of filesystem/RNG outcomes for one `sanitize_drive` call:
whether the target path exists, the error (if any) of the `File::create`
call, of the `k`-th `write_all` call, of the `k`-th `sync_all` call, of the
`remove_file` call, and the stream of `rng.random()` byte samples. -/
structure IoEnv where
  pathExists : String → Bool
  createErr : Option String
  writeErr : Nat → Option String
  syncErr : Nat → Option String
  removeErr : Option String
  rng : Nat → Nat

/-- `let buffer_size = 1024 * 1024` (main.rs line 235). -/
def buffer_size : Nat := 1024 * 1024

/-- `let iterations = 100` (main.rs line 237). -/
def iterations : Nat := 100

/-- The buffer built for pass `passNum` (main.rs lines 240-244): zeros,
then 0xFF bytes, then one block of `rng.random()` samples (reduced mod 256
to model `u8`). -/
def passBuffer (env : IoEnv) : Nat → (Nat → Nat)
  | 0 => fun _ => 0
  | 1 => fun _ => 255
  | _ => fun i => env.rng i % 256

/-- The inner write loop (main.rs lines 246-250): `n` more `write_all`
calls of the same buffer, with `idx` counting the writes issued so far in
this `sanitize_drive` call.  Returns the issued operations and the first
error, if any. -/
def writeLoop (env : IoEnv) (path : String) (len : Nat) (data : Nat → Nat) :
    Nat → Nat → List FsOp × Option String
  | _, 0 => ([], none)
  | idx, n + 1 =>
    match env.writeErr idx with
    | some e => ([FsOp.write path len data], some e)
    | none =>
      let r := writeLoop env path len data (idx + 1) n
      (FsOp.write path len data :: r.1, r.2)

/-- The outer pass loop (main.rs lines 239-255): `n` more passes, starting
at pass number `passNum`, with `wIdx`/`sIdx` counting the write/sync calls
already issued.  Each pass writes its buffer `iters` times and then calls
`sync_all`. -/
def passLoop (env : IoEnv) (path : String) (bufSize iters : Nat) :
    Nat → Nat → Nat → Nat → List FsOp × Option String
  | _, _, _, 0 => ([], none)
  | passNum, wIdx, sIdx, n + 1 =>
    let data := passBuffer env passNum
    let w := writeLoop env path bufSize data wIdx iters
    match w.2 with
    | some e => (w.1, some e)
    | none =>
      match env.syncErr sIdx with
      | some e => (w.1 ++ [FsOp.sync path], some e)
      | none =>
        let rest := passLoop env path bufSize iters (passNum + 1) (wIdx + iters) (sIdx + 1) n
        (w.1 ++ FsOp.sync path :: rest.1, rest.2)

/-- The per-pass megabyte figure interpolated into the success message at
main.rs line 262: `iterations * (buffer_size as u64) / (1024 * 1024)`. -/
def reportedMB : Nat := iterations * buffer_size / (1024 * 1024)

/-- `sanitize_drive` (main.rs lines 211-266), returning the command result
together with the trace of filesystem operations it issued.  `create` and
`remove` are recorded only when they succeed (a failed `File::create` or
`remove_file` leaves the filesystem as it was); `write`/`sync` record the
attempt. -/
def sanitize_drive (p : Platform) (sys : SysEnv) (ioEnv : IoEnv)
    (drive_letter : String) (confirm : Bool) : Except String String × List FsOp :=
  if !confirm then (.error "Confirmation required to proceed", [])
  else
    match detect_drives p sys with
    | .error e => (.error e, [])
    | .ok drives =>
      match drives.find? (fun d => d.letter == drive_letter) with
      | none => (.error "Drive not found", [])
      | some drive =>
        if drive.is_system then (.error "Cannot sanitize system drive", [])
        else if !(ioEnv.pathExists drive_letter) then
          (.error ("Drive " ++ drive_letter ++ " not found or not accessible"), [])
        else
          let temp_file_path := drive_letter ++ "/temp_sanitize_file"
          match ioEnv.createErr with
          | some e => (.error e, [])
          | none =>
            let r := passLoop ioEnv temp_file_path buffer_size iterations 0 0 0 3
            match r.2 with
            | some e => (.error e, FsOp.create temp_file_path :: r.1)
            | none =>
              match ioEnv.removeErr with
              | some e => (.error e, FsOp.create temp_file_path :: r.1)
              | none =>
                (.ok ("Sanitized " ++ drive_letter ++
                      " with 3-pass overwrite method (limited to " ++
                      toString reportedMB ++ "MB)"),
                 FsOp.create temp_file_path :: r.1 ++ [FsOp.remove temp_file_path])

/-- Total number of bytes handed to `write_all` along a trace. -/
def bytesWritten : List FsOp → Nat
  | [] => 0
  | FsOp.write _ len _ :: rest => len + bytesWritten rest
  | _ :: rest => bytesWritten rest

/-- Effect of one operation on the "does this path exist" view of the
filesystem. -/
def applyOp (ex : String → Bool) : FsOp → String → Bool
  | FsOp.create q => fun p => if p == q then true else ex p
  | FsOp.remove q => fun p => if p == q then false else ex p
  | _ => ex

/-- Existence view of the filesystem after replaying a trace. -/
def applyTrace (ex : String → Bool) : List FsOp → String → Bool
  | [] => ex
  | op :: rest => applyTrace (applyOp ex op) rest

/-- File-offset segments produced by the writes of a trace to `path`:
the file handle is opened once and never seeks, so each successful write
occupies the next `len` offsets of the file. -/
def segments (path : String) : Nat → List FsOp → List (Nat × Nat × (Nat → Nat))
  | _, [] => []
  | pos, FsOp.write q len d :: rest =>
    if q == path then (pos, len, d) :: segments path (pos + len) rest
    else segments path pos rest
  | pos, _ :: rest => segments path pos rest

/-- All byte values written at file offset `off`, in write order, given the
offset segments of the trace. -/
def valuesAt (segs : List (Nat × Nat × (Nat → Nat))) (off : Nat) : List Nat :=
  segs.filterMap fun s =>
    if s.1 ≤ off ∧ off < s.1 + s.2.1 then some (s.2.2 (off - s.1)) else none

/-- The (length, data) pairs of the write operations of a trace, in order. -/
def writesOf : List FsOp → List (Nat × (Nat → Nat))
  | [] => []
  | FsOp.write _ len d :: rest => (len, d) :: writesOf rest
  | _ :: rest => writesOf rest

/-- Number of descriptors flagged as the system volume. -/
def systemCount (ds : List DriveInfo) : Nat :=
  (ds.filter (fun d => d.is_system)).length

/-- `n` consecutive write segments of length `L` starting at offset `pos`,
all carrying the same data block `d`. -/
def repSegs (pos L : Nat) (d : Nat → Nat) : Nat → List (Nat × Nat × (Nat → Nat))
  | 0 => []
  | n + 1 => (pos, L, d) :: repSegs (pos + L) L d n

/-- The byte that a fully successful run deposits at scratch-file offset
`off`: the writes append (the file handle never seeks), so pass 1 occupies
offsets [0, 100 MiB), pass 2 occupies [100 MiB, 200 MiB) and pass 3
occupies [200 MiB, 300 MiB) with its single sampled block repeated. -/
def passPatternByte (env : IoEnv) (off : Nat) : Nat :=
  if off < 104857600 then 0
  else if off < 209715200 then 255
  else env.rng ((off - 209715200) % 1048576) % 256

/-- A Windows environment with no volume metadata available. -/
def noWin : WinEnv := { drivesMask := 0, volInfo := fun _ => none, diskSpace := fun _ => none }

/-- Platform environment for a Linux host with a single mounted volume
`/mnt/usb`. -/
def usbLinux : SysEnv :=
  { mac := { volumesDir := none }
    win := noWin
    linux := { mntDir := some [{ name := "usb", isDir := true }] } }

/-- The enumeration result for `usbLinux`. -/
def usbList : List DriveInfo := [linuxDrive "usb"]

/-- Filesystem environment in which `/mnt/usb` exists and every filesystem
operation succeeds; the RNG emits the byte stream 0,1,2,... -/
def okNoErr : IoEnv :=
  { pathExists := fun s => s == "/mnt/usb"
    createErr := none
    writeErr := fun _ => none
    syncErr := fun _ => none
    removeErr := none
    rng := fun i => i }

/-- Like `okNoErr` but the RNG emits only zero bytes. -/
def zeroRng : IoEnv :=
  { pathExists := fun s => s == "/mnt/usb"
    createErr := none
    writeErr := fun _ => none
    syncErr := fun _ => none
    removeErr := none
    rng := fun _ => 0 }

/-- Platform environment for a Windows host with drives `C:` and `D:`
(mask bits 2 and 3) whose metadata queries fail. -/
def winCD : SysEnv :=
  { mac := { volumesDir := none }
    win := { drivesMask := 12, volInfo := fun _ => none, diskSpace := fun _ => none }
    linux := { mntDir := none } }

/-- The enumeration result for `winCD`. -/
def winCDList : List DriveInfo := [winDrive winCD.win 2, winDrive winCD.win 3]

/-- Platform environment for a macOS host mounting volumes `Macintosh HD`
and `Macintosh HD 2`. -/
def macTwoHD : SysEnv :=
  { mac := { volumesDir := some [{ name := "Macintosh HD", isDir := true },
                                 { name := "Macintosh HD 2", isDir := true }] }
    win := noWin
    linux := { mntDir := none } }

/-- Platform environment for a macOS host on which reading `/Volumes`
fails. -/
def macFail : SysEnv :=
  { mac := { volumesDir := none }
    win := noWin
    linux := { mntDir := none } }

/-- The operations issued by the three passes when every `write_all` and
`sync_all` succeeds: 100 one-MiB zero writes, a sync, 100 one-MiB 0xFF
writes, a sync, 100 writes of the single sampled random block, a sync. -/
def successOps (env : IoEnv) (path : String) : List FsOp :=
  List.replicate iterations (FsOp.write path buffer_size (fun _ => 0)) ++
    FsOp.sync path ::
      (List.replicate iterations (FsOp.write path buffer_size (fun _ => 255)) ++
        FsOp.sync path ::
          (List.replicate iterations
              (FsOp.write path buffer_size (fun i => env.rng i % 256)) ++
            [FsOp.sync path]))

/-- The full trace of a fully successful `sanitize_drive` call on target
`id`: create the scratch file, run the three passes, remove the scratch
file. -/
def successTrace (env : IoEnv) (id : String) : List FsOp :=
  FsOp.create (id ++ "/temp_sanitize_file") ::
    (successOps env (id ++ "/temp_sanitize_file") ++
      [FsOp.remove (id ++ "/temp_sanitize_file")])

lemma writeLoop_ok (env : IoEnv) (path : String) (len : Nat)
    (hw : ∀ k, env.writeErr k = none) (d : Nat → Nat) :
    ∀ n idx, writeLoop env path len d idx n =
      (List.replicate n (FsOp.write path len d), none) := by
  intro n
  induction n with
  | zero => intro idx; simp [writeLoop]
  | succ n ih =>
    intro idx
    simp [writeLoop, hw idx, ih (idx + 1), List.replicate_succ]

lemma passLoop_three (env : IoEnv) (path : String)
    (hw : ∀ k, env.writeErr k = none) (hs : ∀ k, env.syncErr k = none) :
    passLoop env path buffer_size iterations 0 0 0 3 = (successOps env path, none) := by
  have h0 : passBuffer env 0 = fun _ => 0 := rfl
  have h1 : passBuffer env 1 = fun _ => 255 := rfl
  have h2 : passBuffer env 2 = fun i => env.rng i % 256 := rfl
  show passLoop env path buffer_size iterations 0 0 0 (0 + 1 + 1 + 1) = _
  simp [passLoop, writeLoop_ok env path buffer_size hw, hs, h0, h1, h2, successOps]

/-- Success normal form of `sanitize_drive`: with confirmation, a resolved
non-system target whose path exists, and every filesystem operation
succeeding, the call returns the fixed summary string and issues exactly
the `successTrace` operations. -/
lemma sanitize_confirmed_ok (p : Platform) (sys : SysEnv) (ioEnv : IoEnv)
    (id : String) (ds : List DriveInfo) (d : DriveInfo)
    (hdet : detect_drives p sys = .ok ds)
    (hfind : ds.find? (fun x => x.letter == id) = some d)
    (hsys : d.is_system = false)
    (hex : ioEnv.pathExists id = true)
    (hc : ioEnv.createErr = none)
    (hw : ∀ k, ioEnv.writeErr k = none)
    (hs : ∀ k, ioEnv.syncErr k = none)
    (hr : ioEnv.removeErr = none) :
    sanitize_drive p sys ioEnv id true =
      (.ok ("Sanitized " ++ id ++ " with 3-pass overwrite method (limited to " ++
            toString reportedMB ++ "MB)"),
       successTrace ioEnv id) := by
  simp [sanitize_drive, hdet, hfind, hsys, hex, hc, hr,
    passLoop_three ioEnv _ hw hs, successTrace]

lemma bytesWritten_append (l1 l2 : List FsOp) :
    bytesWritten (l1 ++ l2) = bytesWritten l1 + bytesWritten l2 := by
  induction l1 with
  | nil => simp [bytesWritten]
  | cons op rest ih => cases op <;> simp [bytesWritten, ih, Nat.add_assoc]

lemma bytesWritten_replicate (n : Nat) (p : String) (len : Nat) (d : Nat → Nat) :
    bytesWritten (List.replicate n (FsOp.write p len d)) = n * len := by
  induction n with
  | zero => simp [bytesWritten]
  | succ n ih =>
    simp [List.replicate_succ, bytesWritten, ih, Nat.succ_mul]
    omega

lemma bytesWritten_successTrace (env : IoEnv) (id : String) :
    bytesWritten (successTrace env id) = 314572800 := by
  simp [successTrace, successOps, bytesWritten, bytesWritten_append,
    bytesWritten_replicate, iterations, buffer_size]

lemma applyTrace_append (ex : String → Bool) (l1 l2 : List FsOp) :
    applyTrace ex (l1 ++ l2) = applyTrace (applyTrace ex l1) l2 := by
  induction l1 generalizing ex with
  | nil => rfl
  | cons op rest ih => simp [applyTrace, ih]

lemma applyTrace_write_replicate (ex : String → Bool) (n : Nat) (q : String)
    (len : Nat) (d : Nat → Nat) :
    applyTrace ex (List.replicate n (FsOp.write q len d)) = ex := by
  induction n with
  | zero => rfl
  | succ n ih => simp [List.replicate_succ, applyTrace, applyOp, ih]

lemma applyTrace_successOps (ex : String → Bool) (env : IoEnv) (path : String) :
    applyTrace ex (successOps env path) = ex := by
  simp [successOps, applyTrace_append, applyTrace_write_replicate, applyTrace, applyOp]

/-- After a fully successful run the scratch artifact does not exist. -/
lemma scratch_removed (env : IoEnv) (id : String) (ex : String → Bool) :
    applyTrace ex (successTrace env id) (id ++ "/temp_sanitize_file") = false := by
  simp [successTrace, applyTrace, applyTrace_append, applyTrace_successOps, applyOp]

lemma segments_replicate (path : String) (L : Nat) (d : Nat → Nat) :
    ∀ (n pos : Nat) (rest : List FsOp),
      segments path pos (List.replicate n (FsOp.write path L d) ++ rest) =
        repSegs pos L d n ++ segments path (pos + n * L) rest := by
  intro n
  induction n with
  | zero => intro pos rest; simp [repSegs]
  | succ n ih =>
    intro pos rest
    simp only [List.replicate_succ, List.cons_append, segments, beq_self_eq_true,
      if_true, List.append_eq]
    rw [ih (pos + L) rest]
    have harith : pos + L + n * L = pos + (n + 1) * L := by ring
    rw [harith, repSegs]
    simp

lemma valuesAt_cons (s : Nat × Nat × (Nat → Nat))
    (rest : List (Nat × Nat × (Nat → Nat))) (off : Nat) :
    valuesAt (s :: rest) off =
      (if s.1 ≤ off ∧ off < s.1 + s.2.1 then [s.2.2 (off - s.1)] else []) ++
        valuesAt rest off := by
  simp only [valuesAt, List.filterMap_cons]
  split <;> simp_all

lemma valuesAt_append (s1 s2 : List (Nat × Nat × (Nat → Nat))) (off : Nat) :
    valuesAt (s1 ++ s2) off = valuesAt s1 off ++ valuesAt s2 off := by
  simp [valuesAt, List.filterMap_append]

lemma valuesAt_repSegs (L : Nat) (d : Nat → Nat) :
    ∀ (n pos off : Nat),
      valuesAt (repSegs pos L d n) off =
        if pos ≤ off ∧ off < pos + n * L then [d ((off - pos) % L)] else [] := by
  intro n
  induction n with
  | zero =>
    intro pos off
    rw [repSegs, if_neg (by omega)]
    rfl
  | succ n ih =>
    intro pos off
    rw [repSegs, valuesAt_cons, ih (pos + L) off]
    dsimp only
    have hle : L ≤ (n + 1) * L := by
      calc L = 1 * L := by ring
      _ ≤ (n + 1) * L := Nat.mul_le_mul_right L (by omega)
    have heq : pos + L + n * L = pos + (n + 1) * L := by ring
    by_cases ha : off < pos
    · rw [if_neg (by omega), if_neg (by omega), if_neg (by omega)]
      rfl
    · by_cases hb : off < pos + L
      · rw [if_pos ⟨by omega, by omega⟩, if_neg (by omega), if_pos ⟨by omega, by omega⟩]
        rw [Nat.mod_eq_of_lt (by omega)]
        rfl
      · rw [if_neg (by omega), List.nil_append]
        have hsub : off - pos = (off - (pos + L)) + L := by omega
        by_cases hc : off < pos + L + n * L
        · rw [if_pos ⟨by omega, hc⟩, if_pos ⟨by omega, by omega⟩]
          rw [hsub, Nat.add_mod_right]
        · rw [if_neg (by omega), if_neg (by omega)]

lemma segments_create (path q : String) (pos : Nat) (l : List FsOp) :
    segments path pos (FsOp.create q :: l) = segments path pos l := rfl

lemma segments_sync (path q : String) (pos : Nat) (l : List FsOp) :
    segments path pos (FsOp.sync q :: l) = segments path pos l := rfl

lemma segments_remove (path q : String) (pos : Nat) (l : List FsOp) :
    segments path pos (FsOp.remove q :: l) = segments path pos l := rfl

lemma segments_nil (path : String) (pos : Nat) : segments path pos [] = [] := rfl

lemma segments_successTrace (env : IoEnv) (id : String) :
    segments (id ++ "/temp_sanitize_file") 0 (successTrace env id) =
      repSegs 0 buffer_size (fun _ => 0) iterations ++
        (repSegs 104857600 buffer_size (fun _ => 255) iterations ++
          repSegs 209715200 buffer_size (fun i => env.rng i % 256) iterations) := by
  simp only [successTrace, successOps, segments_create, List.append_assoc,
    List.cons_append, List.nil_append]
  rw [segments_replicate, segments_sync, segments_replicate, segments_sync,
    segments_replicate, segments_sync, segments_remove, segments_nil]
  norm_num [iterations, buffer_size]

lemma writesOf_append (l1 l2 : List FsOp) :
    writesOf (l1 ++ l2) = writesOf l1 ++ writesOf l2 := by
  induction l1 with
  | nil => simp [writesOf]
  | cons op rest ih => cases op <;> simp [writesOf, ih]

lemma writesOf_replicate (n : Nat) (p : String) (L : Nat) (d : Nat → Nat) :
    writesOf (List.replicate n (FsOp.write p L d)) = List.replicate n (L, d) := by
  induction n with
  | zero => rfl
  | succ n ih => simp [List.replicate_succ, writesOf, ih]

lemma writesOf_successTrace (env : IoEnv) (id : String) :
    writesOf (successTrace env id) =
      List.replicate 100 (buffer_size, fun _ => 0) ++
        (List.replicate 100 (buffer_size, fun _ => 255) ++
          List.replicate 100 (buffer_size, fun i => env.rng i % 256)) := by
  simp [successTrace, successOps, writesOf, writesOf_append, writesOf_replicate, iterations]

/-- C1: whenever the volume resolved for `id` by a fresh enumeration is
flagged `is_system`, a confirmed `sanitize_drive` call returns the
`Cannot sanitize system drive` error, and for either confirmation value the
call issues no filesystem operation at all — no scratch-file creation and
no write ever happens for a system volume, so it never reaches the
overwrite code. -/
theorem system_volume_never_overwritten
    (p : Platform) (sys : SysEnv) (ioEnv : IoEnv) (id : String)
    (ds : List DriveInfo) (d : DriveInfo)
    (hdet : detect_drives p sys = .ok ds)
    (hfind : ds.find? (fun x => x.letter == id) = some d)
    (hsys : d.is_system = true) :
    (sanitize_drive p sys ioEnv id true).1 = .error "Cannot sanitize system drive" ∧
      ∀ confirm : Bool, (sanitize_drive p sys ioEnv id confirm).2 = [] := by
  constructor
  · simp [sanitize_drive, hdet, hfind, hsys]
  · intro confirm
    cases confirm
    · rfl
    · simp [sanitize_drive, hdet, hfind, hsys]

/-- Witness for C1 at a Windows host with drives `C:` and `D:`: targeting
`C:\` is rejected with the system-volume error and issues no operation. -/
theorem system_volume_never_overwritten_witness :
    detect_drives .windows winCD = .ok winCDList ∧
    winCDList.find? (fun x => x.letter == "C:\\") = some (winDrive winCD.win 2) ∧
    (winDrive winCD.win 2).is_system = true ∧
    (sanitize_drive .windows winCD okNoErr "C:\\" true).1 =
      .error "Cannot sanitize system drive" ∧
    (∀ confirm : Bool, (sanitize_drive .windows winCD okNoErr "C:\\" confirm).2 = []) := by
  have h := system_volume_never_overwritten .windows winCD okNoErr "C:\\"
    winCDList (winDrive winCD.win 2) rfl (by decide) (by decide)
  exact ⟨rfl, by decide, by decide, h.1, h.2⟩

/-- C5: with `confirmed = false`, `sanitize_drive` returns the
`Confirmation required to proceed` error and issues no filesystem operation
(empty trace).  The result is a constant, independent of the platform and
filesystem environments, so no volume enumeration and no I/O outcome can
influence it. -/
theorem unconfirmed_sanitize_constant (p : Platform) (sys : SysEnv)
    (ioEnv : IoEnv) (id : String) :
    sanitize_drive p sys ioEnv id false =
      (.error "Confirmation required to proceed", []) := rfl

/-- C6: `check_safety` dispatches on a fresh `detect_drives` enumeration
(the definition invokes it directly on every call): the first drive whose
`letter` is exactly equal to the argument determines the outcome — Unsafe
error if it is the system volume, `Ok true` otherwise — and if no drive
matches, the NotFound error is returned. -/
theorem check_safety_classification (p : Platform) (sys : SysEnv) (id : String)
    (ds : List DriveInfo)
    (hdet : detect_drives p sys = .ok ds) :
    (∀ d, ds.find? (fun x => x.letter == id) = some d →
        d.letter = id ∧
        (d.is_system = true →
          check_safety p sys id = .error "Cannot sanitize system drive") ∧
        (d.is_system = false → check_safety p sys id = .ok true)) ∧
    (ds.find? (fun x => x.letter == id) = none →
        check_safety p sys id = .error "Drive not found") := by
  constructor
  · intro d hfind
    refine ⟨?_, ?_, ?_⟩
    · have h := List.find?_some hfind
      simpa using h
    · intro hsys
      simp [check_safety, hdet, hfind, hsys]
    · intro hsys
      simp [check_safety, hdet, hfind, hsys]
  · intro hnone
    simp [check_safety, hdet, hnone]

/-- Witness for C6 on the Windows host `winCD`: the system drive `C:\` is
rejected as unsafe, the data drive `D:\` is accepted, and the absent `Z:\`
reports NotFound. -/
theorem check_safety_classification_witness :
    detect_drives .windows winCD = .ok winCDList ∧
    check_safety .windows winCD "C:\\" = .error "Cannot sanitize system drive" ∧
    check_safety .windows winCD "D:\\" = .ok true ∧
    check_safety .windows winCD "Z:\\" = .error "Drive not found" := by
  refine ⟨rfl, ?_, ?_, ?_⟩
  · exact (((check_safety_classification .windows winCD "C:\\" winCDList rfl).1
      (winDrive winCD.win 2) (by decide)).2.1) (by decide)
  · exact (((check_safety_classification .windows winCD "D:\\" winCDList rfl).1
      (winDrive winCD.win 3) (by decide)).2.2) (by decide)
  · exact (check_safety_classification .windows winCD "Z:\\" winCDList rfl).2 (by decide)

/-- C2: a confirmed `sanitize_drive` call on a resolved, non-system target
whose path exists, in which every filesystem operation succeeds, returns Ok
and issues exactly the `successTrace` operations — scratch create, then 100
one-MiB writes of the zero buffer, a sync, 100 one-MiB writes of the 0xFF
buffer, a sync, 100 one-MiB writes of the sampled random buffer, a sync,
then scratch removal — for a total of 3·100·1048576 = 314572800 written
bytes, after which the scratch artifact no longer exists. -/
theorem sanitize_success_three_pass
    (p : Platform) (sys : SysEnv) (ioEnv : IoEnv) (id : String)
    (ds : List DriveInfo) (d : DriveInfo)
    (hdet : detect_drives p sys = .ok ds)
    (hfind : ds.find? (fun x => x.letter == id) = some d)
    (hsys : d.is_system = false)
    (hex : ioEnv.pathExists id = true)
    (hc : ioEnv.createErr = none)
    (hw : ∀ k, ioEnv.writeErr k = none)
    (hs : ∀ k, ioEnv.syncErr k = none)
    (hr : ioEnv.removeErr = none) :
    sanitize_drive p sys ioEnv id true =
      (.ok ("Sanitized " ++ id ++ " with 3-pass overwrite method (limited to " ++
            toString reportedMB ++ "MB)"),
       successTrace ioEnv id) ∧
    bytesWritten (sanitize_drive p sys ioEnv id true).2 = 314572800 ∧
    applyTrace ioEnv.pathExists (sanitize_drive p sys ioEnv id true).2
      (id ++ "/temp_sanitize_file") = false := by
  have h := sanitize_confirmed_ok p sys ioEnv id ds d hdet hfind hsys hex hc hw hs hr
  refine ⟨h, ?_, ?_⟩
  · rw [h]
    exact bytesWritten_successTrace ioEnv id
  · rw [h]
    exact scratch_removed ioEnv id ioEnv.pathExists

/-- Witness for C2: the concrete all-success run on `/mnt/usb`. -/
theorem sanitize_success_three_pass_witness :
    detect_drives .linux usbLinux = .ok usbList ∧
    usbList.find? (fun x => x.letter == "/mnt/usb") = some (linuxDrive "usb") ∧
    (linuxDrive "usb").is_system = false ∧
    okNoErr.pathExists "/mnt/usb" = true ∧
    okNoErr.createErr = none ∧
    (∀ k, okNoErr.writeErr k = none) ∧
    (∀ k, okNoErr.syncErr k = none) ∧
    okNoErr.removeErr = none ∧
    (sanitize_drive .linux usbLinux okNoErr "/mnt/usb" true =
      (.ok ("Sanitized " ++ "/mnt/usb" ++
            " with 3-pass overwrite method (limited to " ++
            toString reportedMB ++ "MB)"),
       successTrace okNoErr "/mnt/usb") ∧
     bytesWritten (sanitize_drive .linux usbLinux okNoErr "/mnt/usb" true).2 =
       314572800 ∧
     applyTrace okNoErr.pathExists
       (sanitize_drive .linux usbLinux okNoErr "/mnt/usb" true).2
       ("/mnt/usb" ++ "/temp_sanitize_file") = false) :=
  ⟨rfl, by decide, rfl, rfl, rfl, fun _ => rfl, fun _ => rfl, rfl,
   sanitize_success_three_pass .linux usbLinux okNoErr "/mnt/usb" usbList
     (linuxDrive "usb") rfl (by decide) rfl rfl rfl (fun _ => rfl) (fun _ => rfl) rfl⟩

/-- C3 counterexample: in a concrete fully successful run, scratch-file
offset 0 is written exactly once, receiving only pass 1's zero byte; the
0xFF byte of pass 2 never reaches it.  Since `write_all` always appends at
the cursor, no offset is ever overwritten by a later pass, refuting "every
byte position of the scratch region is overwritten by pass 1's pattern,
then by pass 2's pattern, then by pass 3's pattern". -/
theorem scratch_offset_written_once :
    valuesAt (segments ("/mnt/usb" ++ "/temp_sanitize_file") 0
        (sanitize_drive .linux usbLinux okNoErr "/mnt/usb" true).2) 0 = [0] ∧
    (valuesAt (segments ("/mnt/usb" ++ "/temp_sanitize_file") 0
        (sanitize_drive .linux usbLinux okNoErr "/mnt/usb" true).2) 0).length = 1 ∧
    ¬ 255 ∈ valuesAt (segments ("/mnt/usb" ++ "/temp_sanitize_file") 0
        (sanitize_drive .linux usbLinux okNoErr "/mnt/usb" true).2) 0 := by
  have h := sanitize_confirmed_ok .linux usbLinux okNoErr "/mnt/usb" usbList
    (linuxDrive "usb") rfl (by decide) rfl rfl rfl (fun _ => rfl) (fun _ => rfl) rfl
  rw [h]
  dsimp only
  rw [segments_successTrace, valuesAt_append, valuesAt_append,
    valuesAt_repSegs, valuesAt_repSegs, valuesAt_repSegs]
  norm_num [iterations, buffer_size]

/-- C3 amended: the three passes are sweeps of three pairwise disjoint
consecutive 100 MiB regions of the growing scratch file, not of one shared
region: in a fully successful run each offset below 300 MiB is written
exactly once — with the zero byte below 100 MiB, the 0xFF byte in
[100 MiB, 200 MiB), and the corresponding byte of the single sampled
random block in [200 MiB, 300 MiB) — and no offset beyond 300 MiB is ever
written. -/
theorem passes_occupy_disjoint_regions
    (p : Platform) (sys : SysEnv) (ioEnv : IoEnv) (id : String)
    (ds : List DriveInfo) (d : DriveInfo)
    (hdet : detect_drives p sys = .ok ds)
    (hfind : ds.find? (fun x => x.letter == id) = some d)
    (hsys : d.is_system = false)
    (hex : ioEnv.pathExists id = true)
    (hc : ioEnv.createErr = none)
    (hw : ∀ k, ioEnv.writeErr k = none)
    (hs : ∀ k, ioEnv.syncErr k = none)
    (hr : ioEnv.removeErr = none) :
    ∀ off : Nat,
      valuesAt (segments (id ++ "/temp_sanitize_file") 0
          (sanitize_drive p sys ioEnv id true).2) off =
        if off < 314572800 then [passPatternByte ioEnv off] else [] := by
  intro off
  have h := sanitize_confirmed_ok p sys ioEnv id ds d hdet hfind hsys hex hc hw hs hr
  rw [h]
  dsimp only
  rw [segments_successTrace, valuesAt_append, valuesAt_append,
    valuesAt_repSegs, valuesAt_repSegs, valuesAt_repSegs]
  norm_num [iterations, buffer_size, passPatternByte]
  by_cases h1 : off < 104857600
  · rw [if_pos (by omega), if_neg (by omega), if_neg (by omega), if_pos (by omega),
      if_pos h1]
    simp
  · by_cases h2 : off < 209715200
    · rw [if_neg (by omega), if_pos (by omega), if_neg (by omega), if_pos (by omega),
        if_neg h1, if_pos h2]
      simp
    · by_cases h3 : off < 314572800
      · rw [if_neg (by omega), if_neg (by omega), if_pos (by omega), if_pos h3,
          if_neg h1, if_neg h2]
        simp
      · rw [if_neg (by omega), if_neg (by omega), if_neg (by omega), if_neg h3]
        simp

/-- Witness for the amended C3 at the concrete all-success run, sampling
one offset from each pass region and one beyond the file end. -/
theorem passes_occupy_disjoint_regions_witness :
    valuesAt (segments ("/mnt/usb" ++ "/temp_sanitize_file") 0
        (sanitize_drive .linux usbLinux okNoErr "/mnt/usb" true).2) 104857600 = [255] ∧
    valuesAt (segments ("/mnt/usb" ++ "/temp_sanitize_file") 0
        (sanitize_drive .linux usbLinux okNoErr "/mnt/usb" true).2) 209715205 = [5] ∧
    valuesAt (segments ("/mnt/usb" ++ "/temp_sanitize_file") 0
        (sanitize_drive .linux usbLinux okNoErr "/mnt/usb" true).2) 314572800 = [] := by
  have h := passes_occupy_disjoint_regions .linux usbLinux okNoErr "/mnt/usb" usbList
    (linuxDrive "usb") rfl (by decide) rfl rfl rfl (fun _ => rfl) (fun _ => rfl) rfl
  refine ⟨?_, ?_, ?_⟩
  · rw [h 104857600]
    norm_num [passPatternByte]
  · rw [h 209715205]
    norm_num [passPatternByte, okNoErr]
  · rw [h 314572800]
    norm_num

/-- C4 counterexample: the concrete all-success run returns the summary
`... (limited to 100MB)` although 314572800 bytes (300 MiB) were written;
neither the figure 300 nor 314572800 occurs anywhere in the summary, so
the summary does not state the total bytes written. -/
theorem summary_figure_is_100MB :
    (sanitize_drive .linux usbLinux okNoErr "/mnt/usb" true).1 =
      .ok "Sanitized /mnt/usb with 3-pass overwrite method (limited to 100MB)" ∧
    bytesWritten (sanitize_drive .linux usbLinux okNoErr "/mnt/usb" true).2 =
      314572800 ∧
    strHasSub "Sanitized /mnt/usb with 3-pass overwrite method (limited to 100MB)"
      "300" = false ∧
    strHasSub "Sanitized /mnt/usb with 3-pass overwrite method (limited to 100MB)"
      "314572800" = false ∧
    strHasSub "Sanitized /mnt/usb with 3-pass overwrite method (limited to 100MB)"
      "100MB" = true := by
  have h := sanitize_confirmed_ok .linux usbLinux okNoErr "/mnt/usb" usbList
    (linuxDrive "usb") rfl (by decide) rfl rfl rfl (fun _ => rfl) (fun _ => rfl) rfl
  refine ⟨?_, ?_, by decide, by decide, by decide⟩
  · rw [h]
    rfl
  · rw [h]
    exact bytesWritten_successTrace okNoErr "/mnt/usb"

/-- C4 amended: the success summary interpolates the per-pass figure
`reportedMB = iterations * buffer_size / 2^20 = 100`, labelled "limited
to", rather than the total; the total actually written is 314572800 bytes
(300 MiB), and the reported figure converted back to bytes differs from
that total. -/
theorem summary_reports_per_pass_cap
    (p : Platform) (sys : SysEnv) (ioEnv : IoEnv) (id : String)
    (ds : List DriveInfo) (d : DriveInfo)
    (hdet : detect_drives p sys = .ok ds)
    (hfind : ds.find? (fun x => x.letter == id) = some d)
    (hsys : d.is_system = false)
    (hex : ioEnv.pathExists id = true)
    (hc : ioEnv.createErr = none)
    (hw : ∀ k, ioEnv.writeErr k = none)
    (hs : ∀ k, ioEnv.syncErr k = none)
    (hr : ioEnv.removeErr = none) :
    (sanitize_drive p sys ioEnv id true).1 =
      .ok ("Sanitized " ++ id ++ " with 3-pass overwrite method (limited to " ++
           toString reportedMB ++ "MB)") ∧
    reportedMB = 100 ∧
    bytesWritten (sanitize_drive p sys ioEnv id true).2 = 314572800 ∧
    reportedMB * 1048576 ≠
      bytesWritten (sanitize_drive p sys ioEnv id true).2 := by
  have h := sanitize_confirmed_ok p sys ioEnv id ds d hdet hfind hsys hex hc hw hs hr
  have hb : bytesWritten (sanitize_drive p sys ioEnv id true).2 = 314572800 := by
    rw [h]
    exact bytesWritten_successTrace ioEnv id
  refine ⟨by rw [h], rfl, hb, ?_⟩
  rw [hb]
  decide

/-- Witness for the amended C4 at the concrete all-success run. -/
theorem summary_reports_per_pass_cap_witness :
    detect_drives .linux usbLinux = .ok usbList ∧
    usbList.find? (fun x => x.letter == "/mnt/usb") = some (linuxDrive "usb") ∧
    ((sanitize_drive .linux usbLinux okNoErr "/mnt/usb" true).1 =
      .ok ("Sanitized " ++ "/mnt/usb" ++
           " with 3-pass overwrite method (limited to " ++
           toString reportedMB ++ "MB)") ∧
     reportedMB = 100 ∧
     bytesWritten (sanitize_drive .linux usbLinux okNoErr "/mnt/usb" true).2 =
       314572800 ∧
     reportedMB * 1048576 ≠
       bytesWritten (sanitize_drive .linux usbLinux okNoErr "/mnt/usb" true).2) :=
  ⟨rfl, by decide,
   summary_reports_per_pass_cap .linux usbLinux okNoErr "/mnt/usb" usbList
     (linuxDrive "usb") rfl (by decide) rfl rfl rfl (fun _ => rfl) (fun _ => rfl) rfl⟩

/-- C9 counterexample: in a concrete fully successful run (RNG emitting
only zero bytes, a possible output of the process generator) the last 100
writes — the whole of pass 3 — all carry the one sampled block, and the
byte pass 3 deposits at offset 200 MiB equals the zero byte of pass 1's
pattern.  The random pass thus consists of one block repeated throughout
and need not differ from the earlier patterns, refuting the claim. -/
theorem random_pass_block_repeats :
    (writesOf (sanitize_drive .linux usbLinux zeroRng "/mnt/usb" true).2).drop 200 =
      List.replicate 100 (buffer_size, fun i => zeroRng.rng i % 256) ∧
    valuesAt (segments ("/mnt/usb" ++ "/temp_sanitize_file") 0
        (sanitize_drive .linux usbLinux zeroRng "/mnt/usb" true).2) 209715200 = [0] ∧
    valuesAt (segments ("/mnt/usb" ++ "/temp_sanitize_file") 0
        (sanitize_drive .linux usbLinux zeroRng "/mnt/usb" true).2) 0 = [0] := by
  have h := sanitize_confirmed_ok .linux usbLinux zeroRng "/mnt/usb" usbList
    (linuxDrive "usb") rfl (by decide) rfl rfl rfl (fun _ => rfl) (fun _ => rfl) rfl
  refine ⟨?_, ?_, ?_⟩
  · rw [h]
    dsimp only
    rw [writesOf_successTrace, ← List.append_assoc]
    exact List.drop_left' (by simp)
  · rw [h]
    dsimp only
    rw [segments_successTrace, valuesAt_append, valuesAt_append,
      valuesAt_repSegs, valuesAt_repSegs, valuesAt_repSegs]
    norm_num [iterations, buffer_size, zeroRng]
  · rw [h]
    dsimp only
    rw [segments_successTrace, valuesAt_append, valuesAt_append,
      valuesAt_repSegs, valuesAt_repSegs, valuesAt_repSegs]
    norm_num [iterations, buffer_size]

/-- C9 amended: pass 3 writes pseudo-random data, but the block is sampled
from the generator once per call: in every fully successful run the write
sequence is 100 zero blocks, then 100 0xFF blocks, then 100 copies of the
single block `fun i => rng i % 256` — the random pass repeats one block and
nothing enforces that it differ from the first two patterns. -/
theorem random_pass_single_block
    (p : Platform) (sys : SysEnv) (ioEnv : IoEnv) (id : String)
    (ds : List DriveInfo) (d : DriveInfo)
    (hdet : detect_drives p sys = .ok ds)
    (hfind : ds.find? (fun x => x.letter == id) = some d)
    (hsys : d.is_system = false)
    (hex : ioEnv.pathExists id = true)
    (hc : ioEnv.createErr = none)
    (hw : ∀ k, ioEnv.writeErr k = none)
    (hs : ∀ k, ioEnv.syncErr k = none)
    (hr : ioEnv.removeErr = none) :
    writesOf (sanitize_drive p sys ioEnv id true).2 =
      List.replicate 100 (buffer_size, fun _ => 0) ++
        (List.replicate 100 (buffer_size, fun _ => 255) ++
          List.replicate 100 (buffer_size, fun i => ioEnv.rng i % 256)) := by
  have h := sanitize_confirmed_ok p sys ioEnv id ds d hdet hfind hsys hex hc hw hs hr
  rw [h]
  dsimp only
  exact writesOf_successTrace ioEnv id

/-- Witness for the amended C9 at the concrete all-success run. -/
theorem random_pass_single_block_witness :
    detect_drives .linux usbLinux = .ok usbList ∧
    usbList.find? (fun x => x.letter == "/mnt/usb") = some (linuxDrive "usb") ∧
    writesOf (sanitize_drive .linux usbLinux okNoErr "/mnt/usb" true).2 =
      List.replicate 100 (buffer_size, fun _ => 0) ++
        (List.replicate 100 (buffer_size, fun _ => 255) ++
          List.replicate 100 (buffer_size, fun i => okNoErr.rng i % 256)) :=
  ⟨rfl, by decide,
   random_pass_single_block .linux usbLinux okNoErr "/mnt/usb" usbList
     (linuxDrive "usb") rfl (by decide) rfl rfl rfl (fun _ => rfl) (fun _ => rfl) rfl⟩

lemma systemCount_cons (x : DriveInfo) (r : List DriveInfo) :
    systemCount (x :: r) = (if x.is_system then 1 else 0) + systemCount r := by
  cases hx : x.is_system
  · simp [systemCount, List.filter_cons, hx]
  · simp [systemCount, List.filter_cons, hx]
    omega

lemma systemCount_filterMap_le (env : WinEnv) :
    ∀ l : List Nat, (∀ i ∈ l, i ≠ 2 → (winLetter i == "C:\\") = false) →
      systemCount (l.filterMap fun i =>
        if env.drivesMask.testBit i then some (winDrive env i) else none) ≤
        l.countP (fun i => i == 2) := by
  intro l
  induction l with
  | nil => intro _; simp [systemCount]
  | cons i t ih =>
    intro h
    have ht := fun j hj => h j (List.mem_cons_of_mem i hj)
    rw [List.filterMap_cons, List.countP_cons]
    cases hb : env.drivesMask.testBit i
    · simp only [hb, Bool.false_eq_true, if_false]
      exact le_trans (ih ht) (Nat.le_add_right _ _)
    · simp only [hb, if_true]
      rw [systemCount_cons]
      by_cases h2 : i = 2
      · subst h2
        have hone : (if (winDrive env 2).is_system then 1 else 0) ≤ 1 := by
          split <;> omega
        have := ih ht
        simp only [beq_self_eq_true, if_true]
        omega
      · have hfalse : (winDrive env i).is_system = false := h i (List.mem_cons_self i t) h2
        rw [hfalse]
        have h2b : (i == 2) = false := by simpa using h2
        rw [h2b]
        simpa using ih ht

lemma winSystemCount_le_one (wenv : WinEnv) (ds : List DriveInfo)
    (hdet : detectWin wenv = .ok ds) : systemCount ds ≤ 1 := by
  have hds : ds = (List.range 26).filterMap fun i =>
      if wenv.drivesMask.testBit i then some (winDrive wenv i) else none := by
    by_cases h0 : wenv.drivesMask == 0
    · rw [detectWin, if_pos h0] at hdet
      simp at hdet
    · rw [detectWin, if_neg h0] at hdet
      injection hdet with h
      exact h.symm
  rw [hds]
  calc systemCount _ ≤ (List.range 26).countP (fun i => i == 2) :=
        systemCount_filterMap_le wenv (List.range 26) (by decide)
    _ = 1 := by decide

lemma linuxSystemCount (lenv : LinuxEnv) : systemCount (detectLinux lenv) = 0 := by
  cases hd : lenv.mntDir with
  | none => simp [detectLinux, hd, systemCount]
  | some entries =>
    simp [detectLinux, hd, systemCount, List.filter_map, linuxDrive, Function.comp]

/-- C7 counterexample: on the macOS path, volumes named `Macintosh HD` and
`Macintosh HD 2` are both flagged `is_system = true` (the second because
its `/Volumes/...` path contains the substring `Macintosh HD`), so an
enumeration result can carry two system descriptors — "never two or more"
fails on the code. -/
theorem two_system_volumes_on_macos :
    detect_drives .macos macTwoHD = .ok (detectMac macTwoHD.mac) ∧
    systemCount (detectMac macTwoHD.mac) = 2 ∧
    ¬ systemCount (detectMac macTwoHD.mac) ≤ 1 :=
  ⟨rfl, by decide, by decide⟩

/-- C7 amended: the at-most-one-system-volume invariant does hold on the
Windows path (only index 2, the `C:\` designator, is ever flagged) and on
the Linux path (no descriptor is ever flagged); it can fail on the macOS
path, as the counterexample shows. -/
theorem at_most_one_system_volume_win_linux (wenv : WinEnv) (lenv : LinuxEnv)
    (ds : List DriveInfo) (hdet : detectWin wenv = .ok ds) :
    systemCount ds ≤ 1 ∧ systemCount (detectLinux lenv) = 0 :=
  ⟨winSystemCount_le_one wenv ds hdet, linuxSystemCount lenv⟩

/-- Witness for the amended C7 at the Windows host with drives `C:`, `D:`
and an empty Linux mount table. -/
theorem at_most_one_system_volume_win_linux_witness :
    detectWin winCD.win = .ok winCDList ∧
    systemCount winCDList ≤ 1 ∧ systemCount (detectLinux macFail.linux) = 0 :=
  ⟨rfl, at_most_one_system_volume_win_linux winCD.win macFail.linux winCDList rfl⟩

/-- C8 counterexample: on the macOS path a failure of the enumeration
primitive itself (`fs::read_dir("/Volumes")` returning `Err`) does not
produce an enumeration-failure error: `detect_drives` silently returns
`Ok []`.  "Returns the EnumerationFailure error exactly when the
underlying platform enumeration primitive itself fails" is therefore
false as a biconditional. -/
theorem read_dir_failure_yields_ok_empty :
    macFail.mac.volumesDir = none ∧
    detect_drives .macos macFail = .ok [] ∧
    detect_drives .macos macFail ≠ .error "Failed to get logical drives" := by
  refine ⟨rfl, rfl, ?_⟩
  intro h
  exact Except.noConfusion h

/-- C8 amended: on the Windows path enumeration errors exactly when
`GetLogicalDrives` returns 0, and a drive whose two metadata queries fail
is still included with default values (empty label and filesystem name,
zero sizes and serial); on the macOS and Linux paths a failing directory
read does not produce an enumeration error but degrades to an empty
listing. -/
theorem enumeration_error_and_metadata_defaults
    (wenv : WinEnv) (menv : MacEnv) (lenv : LinuxEnv) :
    (detectWin wenv = .error "Failed to get logical drives" ↔ wenv.drivesMask = 0) ∧
    (∀ i, i < 26 → wenv.drivesMask.testBit i = true →
      wenv.volInfo i = none → wenv.diskSpace i = none →
      ∃ ds, detectWin wenv = .ok ds ∧
        ({ letter := winLetter i, size := 0, free_space := 0, label := "",
           file_system := "", serial_number := 0,
           is_system := winLetter i == "C:\\" } : DriveInfo) ∈ ds) ∧
    (menv.volumesDir = none → detectMac menv = []) ∧
    (lenv.mntDir = none → detectLinux lenv = []) := by
  refine ⟨⟨?_, ?_⟩, ?_, ?_, ?_⟩
  · intro h
    by_contra h0
    rw [detectWin, if_neg (by simpa using h0)] at h
    simp at h
  · intro h
    rw [detectWin, if_pos (by simpa using h)]
  · intro i hi hbit hv hdsp
    have hmask : wenv.drivesMask ≠ 0 := by
      intro h0
      rw [h0] at hbit
      simp [Nat.zero_testBit] at hbit
    refine ⟨(List.range 26).filterMap fun j =>
      if wenv.drivesMask.testBit j then some (winDrive wenv j) else none, ?_, ?_⟩
    · rw [detectWin, if_neg (by simpa using hmask)]
    · apply List.mem_filterMap.2
      refine ⟨i, List.mem_range.2 hi, ?_⟩
      simp [hbit, winDrive, hv, hdsp]
  · intro h
    simp [detectMac, h]
  · intro h
    simp [detectLinux, h]

/-- Witness for the amended C8: the zero mask errors, drive `D:` of the
`winCD` host (both metadata queries failing) is still enumerated, and
failed directory reads on macOS/Linux give empty listings. -/
theorem enumeration_error_and_metadata_defaults_witness :
    detectWin noWin = .error "Failed to get logical drives" ∧
    (∃ ds, detectWin winCD.win = .ok ds ∧
      ({ letter := winLetter 3, size := 0, free_space := 0, label := "",
         file_system := "", serial_number := 0,
         is_system := winLetter 3 == "C:\\" } : DriveInfo) ∈ ds) ∧
    detectMac macFail.mac = [] ∧ detectLinux macFail.linux = [] := by
  refine ⟨?_, ?_, ?_, ?_⟩
  · exact (enumeration_error_and_metadata_defaults noWin macFail.mac macFail.linux).1.2 rfl
  · exact (enumeration_error_and_metadata_defaults winCD.win macFail.mac
      macFail.linux).2.1 3 (by omega) (by decide) rfl rfl
  · exact (enumeration_error_and_metadata_defaults noWin macFail.mac
      macFail.linux).2.2.1 rfl
  · exact (enumeration_error_and_metadata_defaults noWin macFail.mac
      macFail.linux).2.2.2 rfl

lemma writeLoop_succ_eq (env : IoEnv) (path : String) (len : Nat) (d : Nat → Nat)
    (idx n : Nat) :
    writeLoop env path len d idx (n + 1) =
      match env.writeErr idx with
      | some e => ([FsOp.write path len d], some e)
      | none =>
        (FsOp.write path len d :: (writeLoop env path len d (idx + 1) n).1,
         (writeLoop env path len d (idx + 1) n).2) := rfl

lemma passLoop_succ_eq (env : IoEnv) (path : String) (bs its pn wi si n : Nat) :
    passLoop env path bs its pn wi si (n + 1) =
      match (writeLoop env path bs (passBuffer env pn) wi its).2 with
      | some e => ((writeLoop env path bs (passBuffer env pn) wi its).1, some e)
      | none =>
        match env.syncErr si with
        | some e =>
          ((writeLoop env path bs (passBuffer env pn) wi its).1 ++ [FsOp.sync path],
           some e)
        | none =>
          ((writeLoop env path bs (passBuffer env pn) wi its).1 ++ FsOp.sync path ::
             (passLoop env path bs its (pn + 1) (wi + its) (si + 1) n).1,
           (passLoop env path bs its (pn + 1) (wi + its) (si + 1) n).2) := rfl

/-- Any error surfaced by the inner write loop is the payload of some
`write_all` failure. -/
lemma writeLoop_error_mem (env : IoEnv) (path : String) (len : Nat) (d : Nat → Nat) :
    ∀ n idx e, (writeLoop env path len d idx n).2 = some e →
      ∃ k, env.writeErr k = some e := by
  intro n
  induction n with
  | zero =>
    intro idx e h
    simp [writeLoop] at h
  | succ n ih =>
    intro idx e h
    rw [writeLoop_succ_eq] at h
    cases hw : env.writeErr idx with
    | some e2 =>
      rw [hw] at h
      simp at h
      exact ⟨idx, by rw [hw, h]⟩
    | none =>
      rw [hw] at h
      simp at h
      exact ih (idx + 1) e h

/-- Any error surfaced by the pass loop is the payload of some `write_all`
or `sync_all` failure. -/
lemma passLoop_error_mem (env : IoEnv) (path : String) (bs its : Nat) :
    ∀ n pn wi si e, (passLoop env path bs its pn wi si n).2 = some e →
      (∃ k, env.writeErr k = some e) ∨ (∃ k, env.syncErr k = some e) := by
  intro n
  induction n with
  | zero =>
    intro pn wi si e h
    simp [passLoop] at h
  | succ n ih =>
    intro pn wi si e h
    rw [passLoop_succ_eq] at h
    cases hwl : (writeLoop env path bs (passBuffer env pn) wi its).2 with
    | some e2 =>
      rw [hwl] at h
      simp at h
      exact Or.inl (writeLoop_error_mem env path bs (passBuffer env pn) its wi e
        (by rw [hwl, h]))
    | none =>
      rw [hwl] at h
      cases hsy : env.syncErr si with
      | some e2 =>
        rw [hsy] at h
        simp at h
        exact Or.inr ⟨si, by rw [hsy, h]⟩
      | none =>
        rw [hsy] at h
        simp at h
        exact ih (pn + 1) (wi + its) (si + 1) e h

/-- The path-missing message can never collide with the system-volume
guard message, whatever the identifier (the lengths differ). -/
lemma drive_missing_msg_ne (idStr : String) :
    ("Drive " ++ idStr ++ " not found or not accessible") ≠
      "Cannot sanitize system drive" := by
  intro h
  have hlen := congrArg String.length h
  rw [String.length_append, String.length_append] at hlen
  have h1 : ("Drive ").length = 6 := rfl
  have h2 : (" not found or not accessible").length = 28 := rfl
  have h3 : ("Cannot sanitize system drive").length = 28 := rfl
  rw [h1, h2, h3] at hlen
  omega

/-- C10: on the Linux build every enumerated descriptor has
`is_system = false`, so `check_safety` can never return the Unsafe error
and `sanitize_drive` can never reject a target as a protected system
volume — the system-volume protection is vacuous on that platform.  (The
hypotheses state that the I/O error strings surfaced from the OS are not
themselves the literal guard message, which the code never produces
there.) -/
theorem linux_system_protection_vacuous (sys : SysEnv) (ioEnv : IoEnv) (id : String)
    (hc : ioEnv.createErr ≠ some "Cannot sanitize system drive")
    (hw : ∀ k, ioEnv.writeErr k ≠ some "Cannot sanitize system drive")
    (hs : ∀ k, ioEnv.syncErr k ≠ some "Cannot sanitize system drive")
    (hr : ioEnv.removeErr ≠ some "Cannot sanitize system drive") :
    (∀ d ∈ detectLinux sys.linux, d.is_system = false) ∧
    check_safety .linux sys id ≠ .error "Cannot sanitize system drive" ∧
    ∀ confirm : Bool,
      (sanitize_drive .linux sys ioEnv id confirm).1 ≠
        .error "Cannot sanitize system drive" := by
  have hall : ∀ d ∈ detectLinux sys.linux, d.is_system = false := by
    intro d hd
    cases hmnt : sys.linux.mntDir with
    | none =>
      rw [detectLinux, hmnt] at hd
      simp at hd
    | some entries =>
      rw [detectLinux, hmnt] at hd
      simp only [List.mem_map] at hd
      obtain ⟨e, _, he⟩ := hd
      rw [← he]
      rfl
  have hdet : detect_drives .linux sys = .ok (detectLinux sys.linux) := rfl
  refine ⟨hall, ?_, ?_⟩
  · simp only [check_safety, hdet]
    cases hfind : (detectLinux sys.linux).find? (fun d => d.letter == id) with
    | none =>
      simp only [hfind]
      intro hcontra
      injection hcontra with hmsg
      exact (by decide : ("Drive not found" : String) ≠ "Cannot sanitize system drive") hmsg
    | some d =>
      have hds : d.is_system = false := hall d (List.mem_of_find?_eq_some hfind)
      simp only [hfind, hds, Bool.false_eq_true, if_false]
      intro hcontra
      exact Except.noConfusion hcontra
  · intro confirm
    cases confirm with
    | false =>
      intro hcontra
      have hconst : (sanitize_drive .linux sys ioEnv id false).1 =
          .error "Confirmation required to proceed" := rfl
      rw [hconst] at hcontra
      injection hcontra with hmsg
      exact (by decide :
        ("Confirmation required to proceed" : String) ≠ "Cannot sanitize system drive") hmsg
    | true =>
      simp only [sanitize_drive, hdet, Bool.not_true, if_false]
      cases hfind : (detectLinux sys.linux).find? (fun d => d.letter == id) with
      | none =>
        simp only [hfind]
        intro hcontra
        injection hcontra with hmsg
        exact (by decide : ("Drive not found" : String) ≠ "Cannot sanitize system drive") hmsg
      | some d =>
        have hds : d.is_system = false := hall d (List.mem_of_find?_eq_some hfind)
        simp only [hfind, hds, Bool.false_eq_true, if_false]
        cases hex : ioEnv.pathExists id with
        | false =>
          simp only [hex, Bool.not_false, if_true]
          intro hcontra
          injection hcontra with hmsg
          exact drive_missing_msg_ne id hmsg
        | true =>
          simp only [hex, Bool.not_true, if_false]
          cases hce : ioEnv.createErr with
          | some e =>
            simp only [hce]
            intro hcontra
            injection hcontra with hmsg
            rw [hmsg] at hce
            exact hc hce
          | none =>
            simp only [hce]
            cases hploop : (passLoop ioEnv (id ++ "/temp_sanitize_file")
                buffer_size iterations 0 0 0 3).2 with
            | some e =>
              simp only [hploop]
              intro hcontra
              injection hcontra with hmsg
              rw [hmsg] at hploop
              rcases passLoop_error_mem ioEnv (id ++ "/temp_sanitize_file")
                  buffer_size iterations 3 0 0 0 _ hploop with ⟨k, hk⟩ | ⟨k, hk⟩
              · exact hw k hk
              · exact hs k hk
            | none =>
              simp only [hploop]
              cases hre : ioEnv.removeErr with
              | some e =>
                simp only [hre]
                intro hcontra
                injection hcontra with hmsg
                rw [hmsg] at hre
                exact hr hre
              | none =>
                simp only [hre]
                intro hcontra
                exact Except.noConfusion hcontra

/-- Witness for C10 at the Linux host `usbLinux` with the all-success
filesystem environment. -/
theorem linux_system_protection_vacuous_witness :
    okNoErr.createErr ≠ some "Cannot sanitize system drive" ∧
    (∀ k, okNoErr.writeErr k ≠ some "Cannot sanitize system drive") ∧
    ((∀ d ∈ detectLinux usbLinux.linux, d.is_system = false) ∧
     check_safety .linux usbLinux "/mnt/usb" ≠ .error "Cannot sanitize system drive" ∧
     ∀ confirm : Bool,
       (sanitize_drive .linux usbLinux okNoErr "/mnt/usb" confirm).1 ≠
         .error "Cannot sanitize system drive") :=
  ⟨by decide, fun _ h => Option.noConfusion h,
   linux_system_protection_vacuous usbLinux okNoErr "/mnt/usb"
     (by decide) (fun _ h => Option.noConfusion h) (fun _ h => Option.noConfusion h)
     (by decide)⟩
